import Mathlib

/-!
Verification of `prepare_datasets.py`: a pipeline that prepares skewed HiggsML
datasets.  The script idempotently fetches two shared resources (the base
dataset file and the `datawarehouse` tool checkout) under per-resource locks,
then, for each parameter value `z`, runs an external transform, filters rows
with `PRI_tau_pt > 22`, adds a `Z` column, persists the result to an `.h5`
file and removes the intermediate `.csv.gz`.  A batch runner drives the per-z
preparation over a worker pool and propagates the first observed fault.

The development shallowly embeds the script: filesystem effects become
explicit state passing over an `FS` record together with an event trace,
the external world (fetch outcomes, transform output, `float(z)`) becomes an
`Env` record, exceptions become `Except`/`Option Err`, and the lock-protected
resource fetch becomes a small interleaving state machine.
-/

/-- Exceptions that can cross the worker boundary.  `BaseException` subclasses
such as `KeyboardInterrupt` are included because `catch` catches
`BaseException`. -/
inductive Err where
  | fetchError
  | transformError
  | ioError
  | keyboardInterrupt
  | other (n : Nat)
  deriving DecidableEq, Repr

/-- Embedding of `catch` (lines 46-54); `catch` is a Lean keyword, hence the
`W` suffix.  The wrapper runs the function; a normal return yields `None`, and
any raised `BaseException` is printed and returned (not re-raised).  A
computation that may raise is an `Except Err Unit`. -/
def catchW (r : Except Err Unit) : Option Err :=
  match r with
  | Except.ok _ => none
  | Except.error e => some e

/-- Embedding of the completion loop of `prepare_datasets_for`
(lines 109-113): iterate over the worker results in completion order with a
running index `i`; a `some e` result (a captured fault) is re-raised
immediately, otherwise a progress entry `(i+1, z)` is logged.  The returned
pair is (progress log, raised fault if any). -/
def runLoop (i : Nat) : List (Option Err × String) → List (Nat × String) × Option Err
  | [] => ([], none)
  | (some e, _) :: _ => ([], some e)
  | (none, z) :: rest =>
      let r := runLoop (i + 1) rest
      ((i + 1, z) :: r.1, r.2)

/-- Embedding of `prepare_datasets_for` (lines 104-113) acting on the list of
`catch`-wrapped invocation results in completion-iteration order.  The
`ThreadPoolExecutor` `with` block guarantees every submitted invocation runs
to completion before the function returns or raises; the pure model takes the
full list of completed results as input. -/
def prepare_datasets_for (results : List (Option Err × String)) :
    List (Nat × String) × Option Err :=
  runLoop 0 results

/-- Concrete batch of three parameter values whose second invocation faults,
matching the spec scenario for first-failure propagation. -/
def batchEx : List (Option Err × String) :=
  [(none, "0.7"), (some Err.transformError, "0.74"), (none, "0.78")]

/-- Python-level errors raised by name and attribute resolution. -/
inductive PyErr where
  | nameError (name : String)
  | attributeError (attr : String)
  deriving DecidableEq, Repr

/-- Names bound at module level in `prepare_datasets.py`: the names bound by
the import statements (lines 1-8) followed by the module-level definitions.
`from threading import Lock` binds only `Lock`, never `threading`. -/
def moduleGlobals : List String :=
  ["subprocess", "os", "shutil", "ThreadPoolExecutor", "as_completed", "List",
   "Any", "Lock", "pd", "datawarehouse_lock", "ensure_datawarehouse_downloaded",
   "base_dataset_lock", "ensure_base_dataset_downloaded", "catch",
   "ensure_skewed_dataset_prepared", "Counter", "prepare_datasets_for",
   "prepare_all_datasets"]

/-- Python builtins referenced anywhere in the module. -/
def pythonBuiltins : List String :=
  ["print", "str", "len", "float", "enumerate", "BaseException", "__name__"]

/-- Global name resolution inside a function body: module globals, then
builtins. -/
def resolvesGlobal (name : String) : Bool :=
  moduleGlobals.contains name || pythonBuiltins.contains name

/-- Embedding of `Counter.__init__` (lines 92-94): `self._value = 0` is
assigned, then `threading.Lock()` is evaluated; the name `threading` is looked
up as a global and raises `NameError` when unresolved.  On success the result
would be the list of instance attributes assigned. -/
def counterInit : Except PyErr (List String) :=
  if resolvesGlobal "threading" then Except.ok ["_value", "_lock"]
  else Except.error (PyErr.nameError "threading")

/-- The instance attributes a hypothetically constructed `Counter` would
carry: `__init__` assigns `_value` and `_lock`, and `inc` re-assigns
`_value`; no method ever assigns `value`. -/
def counterAssignedAttrs : List String := ["_value", "_lock"]

/-- Embedding of `Counter.get` (lines 100-102): it returns `self.value`;
instance attribute lookup succeeds only for assigned attributes, otherwise it
raises `AttributeError`. -/
def counterGet (attrs : List String) (values : String → Int) : Except PyErr Int :=
  if attrs.contains "value" then Except.ok (values "value")
  else Except.error (PyErr.attributeError "value")

/-- The global names referenced by each module-level function body of
`prepare_datasets.py` (the static reference graph of the module). -/
def referencedGlobals : String → List String
  | "prepare_all_datasets" => ["prepare_datasets_for", "str"]
  | "prepare_datasets_for" =>
      ["len", "ThreadPoolExecutor", "catch", "ensure_skewed_dataset_prepared",
       "as_completed", "enumerate", "print"]
  | "catch" => ["print", "BaseException"]
  | "ensure_skewed_dataset_prepared" =>
      ["ensure_base_dataset_downloaded", "ensure_datawarehouse_downloaded",
       "os", "print", "subprocess", "pd", "float", "len"]
  | "ensure_base_dataset_downloaded" =>
      ["base_dataset_lock", "os", "print", "subprocess"]
  | "ensure_datawarehouse_downloaded" =>
      ["datawarehouse_lock", "os", "print", "shutil", "subprocess"]
  | "Counter" => ["threading"]
  | _ => []

/-- One breadth-first expansion of the reference graph. -/
def reachStep (seen : List String) : List String :=
  (seen ++ seen.flatMap referencedGlobals).dedup

/-- Names reachable from `seen` in at most `fuel` expansions. -/
def reachable (fuel : Nat) (seen : List String) : List String :=
  match fuel with
  | 0 => seen
  | fuel + 1 => reachable fuel (reachStep seen)

/-- Names reachable from the entry point `prepare_all_datasets` (line 125);
eight expansions is past the fixed point of this 7-node graph. -/
def entryReachable : List String := reachable 8 ["prepare_all_datasets"]

/-- A row of the table loaded from the intermediate CSV: the `PRI_tau_pt`
column (a rational stands in for the numeric value) plus an abstraction of
the remaining columns. -/
structure Row where
  PRI_tau_pt : Rat
  payload : Nat
  deriving DecidableEq, Repr

/-- A row of the persisted output table: the input columns plus the added `Z`
column. -/
structure ORow where
  PRI_tau_pt : Rat
  payload : Nat
  Z : Rat
  deriving DecidableEq, Repr

/-- Embedding of lines 84-85: keep the rows whose `PRI_tau_pt` exceeds 22 and
add a `Z` column equal to the numeric interpretation of the parameter,
uniformly to every retained row. -/
def processTable (df : List Row) (zval : Rat) : List ORow :=
  (df.filter (fun r => decide (22 < r.PRI_tau_pt))).map
    (fun r => ⟨r.PRI_tau_pt, r.payload, zval⟩)

/-- The filesystem locations the script touches.  Directories and fixed files
are booleans ("exists"); the per-parameter intermediate and durable artifacts
are indexed by the string form of `z`, with their table contents carried
alongside. -/
structure FS where
  dataDir : Bool
  thirdPartyDir : Bool
  skewedDir : Bool
  dwDir : Bool
  dwMarker : Bool
  baseCsv : Bool
  csv : String → Bool
  csvData : String → List Row
  h5 : String → Bool
  h5Data : String → List ORow

/-- Observable filesystem and subprocess actions, in program order.  A
`makedirs` event is emitted for each `os.makedirs` call; `fetchDW` is the
`git clone`, `fetchBase` the `curl` download, `transform` the
`datawarehouse.higgsml` subprocess, and the remaining events are the table
read, the HDF5 write and the intermediate removal. -/
inductive Ev where
  | makedirs (d : String)
  | rmtree (p : String)
  | fetchDW
  | fetchBase
  | transform (z : String)
  | readCsv (z : String)
  | writeH5 (z : String)
  | removeCsv (z : String)
  deriving DecidableEq, Repr

/-- The external world: whether each fetch succeeds, whether the transform
subprocess for a given `z` exits successfully, the table the transform writes
for `z`, and the numeric interpretation `float(z)`. -/
structure Env where
  fetchDWOk : Bool
  fetchBaseOk : Bool
  transformOk : String → Bool
  transformOut : String → List Row
  floatOf : String → Rat

/-- Result of running a script fragment: the filesystem afterwards, the trace
of observable actions, and the raised exception if any. -/
structure Out where
  fs : FS
  tr : List Ev
  err : Option Err

/-- Embedding of `ensure_datawarehouse_downloaded` (lines 12-27), the body
under the lock: `os.makedirs('data/3rd-party', exist_ok=True)` (which also
creates `data`), return if the presence marker
`data/3rd-party/datawarehouse/datawarehouse/higgsml.py` exists, otherwise
remove any stale `data/3rd-party/datawarehouse` tree and `git clone`; a
successful clone produces the checkout including the marker file, a failed
one raises (`check=True`). -/
def ensure_datawarehouse_downloaded (env : Env) (s : FS) : Out :=
  let s1 : FS := { s with dataDir := true, thirdPartyDir := true }
  let t1 : List Ev := [Ev.makedirs "data/3rd-party"]
  if s1.dwMarker then ⟨s1, t1, none⟩
  else
    let s2 : FS := { s1 with dwDir := false }
    let t2 : List Ev :=
      if s1.dwDir then t1 ++ [Ev.rmtree "data/3rd-party/datawarehouse"] else t1
    if env.fetchDWOk then
      ⟨{ s2 with dwDir := true, dwMarker := true }, t2 ++ [Ev.fetchDW], none⟩
    else ⟨s2, t2 ++ [Ev.fetchDW], some Err.fetchError⟩

/-- Embedding of `ensure_base_dataset_downloaded` (lines 31-44), the body
under the lock: `os.makedirs('data', exist_ok=True)`, return if
`data/atlas-higgs-challenge-2014-v2.csv.gz` exists, otherwise `curl` it into
`data`; a failed download raises (`check=True`). -/
def ensure_base_dataset_downloaded (env : Env) (s : FS) : Out :=
  let s1 : FS := { s with dataDir := true }
  let t1 : List Ev := [Ev.makedirs "data"]
  if s1.baseCsv then ⟨s1, t1, none⟩
  else if env.fetchBaseOk then
    ⟨{ s1 with baseCsv := true }, t1 ++ [Ev.fetchBase], none⟩
  else ⟨s1, t1 ++ [Ev.fetchBase], some Err.fetchError⟩

/-- Embedding of lines 69-79: if the intermediate `.csv.gz` for `z` does not
exist, invoke the external transform, which on success writes the
intermediate table and on failure raises (`check=True`). -/
def transformStep (env : Env) (z : String) (s : FS) : Out :=
  if s.csv z then ⟨s, [], none⟩
  else if env.transformOk z then
    ⟨{ s with csv := Function.update s.csv z true,
              csvData := Function.update s.csvData z (env.transformOut z) },
      [Ev.transform z], none⟩
  else ⟨s, [Ev.transform z], some Err.transformError⟩

/-- Embedding of lines 82-88: load the intermediate table, filter and
augment it, persist it to the durable `.h5` path, and remove the
intermediate file. -/
def persistStep (env : Env) (z : String) (s : FS) : Out :=
  let out := processTable (s.csvData z) (env.floatOf z)
  let s1 : FS := { s with h5 := Function.update s.h5 z true,
                          h5Data := Function.update s.h5Data z out }
  let s2 : FS := { s1 with csv := Function.update s1.csv z false }
  ⟨s2, [Ev.readCsv z, Ev.writeH5 z, Ev.removeCsv z], none⟩

/-- Embedding of `ensure_skewed_dataset_prepared` (lines 56-89): ensure the
base dataset, ensure the tool checkout, `os.makedirs('data/skewed')`, return
if the durable `.h5` for `z` already exists, otherwise run the transform step
(if the intermediate is absent) and the load-filter-augment-persist-cleanup
step.  A raise in any stage aborts the rest and propagates. -/
def ensure_skewed_dataset_prepared (env : Env) (z : String) (s : FS) : Out :=
  let o1 := ensure_base_dataset_downloaded env s
  match o1.err with
  | some _ => o1
  | none =>
    let o2 := ensure_datawarehouse_downloaded env o1.fs
    match o2.err with
    | some _ => ⟨o2.fs, o1.tr ++ o2.tr, o2.err⟩
    | none =>
      let s3 : FS := { o2.fs with dataDir := true, skewedDir := true }
      let t3 : List Ev := o1.tr ++ o2.tr ++ [Ev.makedirs "data/skewed"]
      if s3.h5 z then ⟨s3, t3, none⟩
      else
        let o4 := transformStep env z s3
        match o4.err with
        | some _ => ⟨o4.fs, t3 ++ o4.tr, o4.err⟩
        | none =>
          let o5 := persistStep env z o4.fs
          ⟨o5.fs, t3 ++ o4.tr ++ o5.tr, o5.err⟩

/-- The table `pd.read_csv` loads at line 82 when `prepare(z)` runs its
pipeline from state `s`: the leftover intermediate table when one exists,
otherwise the table freshly written by the transform. -/
def inputTable (env : Env) (z : String) (s : FS) : List Row :=
  if s.csv z then s.csvData z else env.transformOut z

/-- The two shared resources of the script. -/
inductive Resource where
  | baseDataset
  | datawarehouse
  deriving DecidableEq, Repr

/-- Dispatch `ensure` over a resource. -/
def ensureResource (R : Resource) (env : Env) (s : FS) : Out :=
  match R with
  | Resource.baseDataset => ensure_base_dataset_downloaded env s
  | Resource.datawarehouse => ensure_datawarehouse_downloaded env s

/-- The presence marker of a resource: the expected file whose existence means
the resource is already fetched (line 35 and line 16). -/
def markerOf (R : Resource) (s : FS) : Bool :=
  match R with
  | Resource.baseDataset => s.baseCsv
  | Resource.datawarehouse => s.dwMarker

/-- Whether the resource's storage location exists: the downloaded file
itself for the base dataset (its marker and its storage location coincide),
the checkout directory for the tool. -/
def storageExists (R : Resource) (s : FS) : Bool :=
  match R with
  | Resource.baseDataset => s.baseCsv
  | Resource.datawarehouse => s.dwDir

/-- The fetch event of a resource. -/
def fetchEvOf (R : Resource) : Ev :=
  match R with
  | Resource.baseDataset => Ev.fetchBase
  | Resource.datawarehouse => Ev.fetchDW

/-- The removal event of a resource's storage location. -/
def rmtreeEvOf (R : Resource) : Ev :=
  match R with
  | Resource.baseDataset => Ev.rmtree "data/atlas-higgs-challenge-2014-v2.csv.gz"
  | Resource.datawarehouse => Ev.rmtree "data/3rd-party/datawarehouse"

/-- Whether an event is a fetch operation. -/
def isFetch (e : Ev) : Bool :=
  match e with
  | Ev.fetchDW => true
  | Ev.fetchBase => true
  | _ => false

/-- Environment with successful fetches and transforms, used for concrete
runs. -/
def envOk : Env :=
  { fetchDWOk := true, fetchBaseOk := true,
    transformOk := fun _ => true, transformOut := fun _ => [],
    floatOf := fun _ => 1 }

/-- State for the C2 counterexample: the durable artifact for z = "1.0"
exists, the tool checkout is present, but the base dataset file is absent. -/
def fsC2 : FS :=
  { dataDir := true, thirdPartyDir := true, skewedDir := true,
    dwDir := true, dwMarker := true, baseCsv := false,
    csv := fun _ => false, csvData := fun _ => [],
    h5 := fun z => z == "1.0", h5Data := fun _ => [] }

/-- State for the C6 counterexample: both the durable artifact and a leftover
intermediate file for z = "1.0" exist, and both resources are present. -/
def fsC6 : FS :=
  { fsC2 with baseCsv := true, csv := fun z => z == "1.0" }

/-- State with everything present: both resources, all directories, and the
durable artifact for z = "1.0". -/
def fsAll : FS :=
  { fsC2 with baseCsv := true }

/-- State for exercising the fetch path of the datawarehouse resource: the
checkout directory exists but its presence marker file does not (a stale or
partially cloned checkout). -/
def fsStaleDW : FS :=
  { fsC2 with baseCsv := true, dwMarker := false, h5 := fun _ => false }

/-- State with both resources present and no per-z artifacts at all: a fresh
run of the pipeline for any `z`. -/
def fsFresh : FS :=
  { fsC2 with baseCsv := true, h5 := fun _ => false }

/-- Environment whose transform produces a two-row table, one row above and
one row below the `PRI_tau_pt` threshold, with `float` interpreting every
parameter as 1. -/
def envC4 : Env :=
  { envOk with transformOut := fun _ => [⟨30, 0⟩, ⟨10, 1⟩] }

/-- Program counter of one worker inside `ensure` for a fixed resource:
blocked on `lock.acquire`, holding the lock about to read the presence
marker, holding the lock about to fetch (the marker was absent), holding the
lock about to release, and done. -/
inductive PC where
  | waiting
  | checking
  | fetching
  | releasing
  | finished
  deriving DecidableEq, Repr

/-- Configuration of `n` workers concurrently calling `ensure` for one shared
resource: each worker's program counter, the resource's lock (`some t` when
held by worker `t`), the presence marker, and the number of fetch operations
executed so far. -/
structure MConf where
  n : Nat
  pcs : Nat → PC
  lock : Option Nat
  marker : Bool
  fetches : Nat

/-- One interleaving step by worker `t`: acquiring blocks while the lock is
held (`none` = not enabled); the marker is read while holding the lock; a
fetch (performed only when the marker was absent) installs the marker, per
lines 14-27 and 33-44 where a successful fetch materialises the presence
marker.  Workers follow the lock discipline of the `with lock:` blocks. -/
def mstep (c : MConf) (t : Nat) : Option MConf :=
  if t < c.n then
    match c.pcs t with
    | PC.waiting =>
        match c.lock with
        | none => some { c with lock := some t,
                                pcs := Function.update c.pcs t PC.checking }
        | some _ => none
    | PC.checking =>
        some (if c.marker then { c with pcs := Function.update c.pcs t PC.releasing }
              else { c with pcs := Function.update c.pcs t PC.fetching })
    | PC.fetching =>
        some { c with marker := true, fetches := c.fetches + 1,
                      pcs := Function.update c.pcs t PC.releasing }
    | PC.releasing =>
        some { c with lock := none, pcs := Function.update c.pcs t PC.finished }
    | PC.finished => none
  else none

/-- Run a schedule: at each step the named worker moves; a schedule naming a
blocked or finished worker is invalid (`none`). -/
def mrun (c : MConf) : List Nat → Option MConf
  | [] => some c
  | t :: ts =>
      match mstep c t with
      | none => none
      | some c2 => mrun c2 ts

/-- Initial configuration: `k` workers all about to call `ensure`, lock free,
resource absent, no fetch performed yet. -/
def minit (k : Nat) : MConf :=
  ⟨k, fun _ => PC.waiting, none, false, 0⟩

/-- Whether a program counter is inside the lock-protected critical
section. -/
def inCS (p : PC) : Bool :=
  match p with
  | PC.checking => true
  | PC.fetching => true
  | PC.releasing => true
  | _ => false

/-- Invariant of the lock machine: every worker inside the critical section
is the lock holder; a worker about to fetch saw the marker absent; a worker
past the marker installation point has the marker present; and the fetch
count is determined by the marker. -/
def MInv (c : MConf) : Prop :=
  (∀ t, inCS (c.pcs t) = true → c.lock = some t) ∧
  (∀ t, c.pcs t = PC.fetching → c.marker = false) ∧
  (∀ t, c.pcs t = PC.releasing → c.marker = true) ∧
  (∀ t, c.pcs t = PC.finished → c.marker = true) ∧
  (c.fetches = if c.marker then 1 else 0)

theorem runLoop_all_ok (i : Nat) (rs : List (Option Err × String))
    (h : ∀ p ∈ rs, p.1 = none) :
    (runLoop i rs).1.length = rs.length ∧ (runLoop i rs).2 = none := by
  induction rs generalizing i with
  | nil => simp [runLoop]
  | cons p rest ih =>
      obtain ⟨o, z⟩ := p
      have hp : o = none := h (o, z) (List.mem_cons_self _ _)
      subst hp
      have := ih (i + 1) (fun q hq => h q (List.mem_cons_of_mem _ hq))
      simp [runLoop, this.1, this.2]

theorem runLoop_first_fault (i : Nat) (pre : List (Option Err × String))
    (e : Err) (z : String) (post : List (Option Err × String))
    (h : ∀ p ∈ pre, p.1 = none) :
    (runLoop i (pre ++ (some e, z) :: post)).1.length = pre.length ∧
    (runLoop i (pre ++ (some e, z) :: post)).2 = some e := by
  induction pre generalizing i with
  | nil => simp [runLoop]
  | cons p rest ih =>
      obtain ⟨o, w⟩ := p
      have hp : o = none := h (o, w) (List.mem_cons_self _ _)
      subst hp
      have := ih (i + 1) (fun q hq => h q (List.mem_cons_of_mem _ hq))
      simp [runLoop, this.1, this.2]

/-- Claim C1, counterexample: on a batch of three results whose second is a
fault, the runner raises the fault but the progress log has length 1, not 3,
so the logged completion count never reaches n/n before the re-raise. -/
theorem C1_counterexample :
    (prepare_datasets_for batchEx).2 = some Err.transformError ∧
    (prepare_datasets_for batchEx).1.length ≠ batchEx.length := by
  constructor
  · rfl
  · decide

/-- Claim C1, amended: when the results observed in completion-iteration order
are `pre ++ fault ++ post` with every invocation in `pre` successful, the
runner re-raises exactly that first-observed fault, and progress lines are
logged only for the successful invocations observed before it (the logged
count reaches `pre.length`, not n/n); the dispatched invocations still all
run to completion because the executor shutdown waits, but the other faults
are only logged, never raised. -/
theorem C1_first_fault_raised_progress_truncated
    (pre : List (Option Err × String)) (e : Err) (z : String)
    (post : List (Option Err × String))
    (h : ∀ p ∈ pre, p.1 = none) :
    (prepare_datasets_for (pre ++ (some e, z) :: post)).2 = some e ∧
    (prepare_datasets_for (pre ++ (some e, z) :: post)).1.length = pre.length :=
  ⟨(runLoop_first_fault 0 pre e z post h).2, (runLoop_first_fault 0 pre e z post h).1⟩

theorem C1_first_fault_raised_progress_truncated_witness :
    (prepare_datasets_for ([(none, "a")] ++ (some Err.fetchError, "b") :: [(none, "c")])).2 =
      some Err.fetchError ∧
    (prepare_datasets_for ([(none, "a")] ++ (some Err.fetchError, "b") :: [(none, "c")])).1.length = 1 :=
  C1_first_fault_raised_progress_truncated [(none, "a")] Err.fetchError "b" [(none, "c")]
    (by decide)

/-- Claim C9: `catchW` returns `none` exactly when the wrapped computation
completes without raising; otherwise it returns the very exception value that
was raised, including `BaseException` subclasses such as `KeyboardInterrupt`;
and the batch runner re-raises that identical exception value to its
caller. -/
theorem C9_catch_contract :
    (∀ r : Except Err Unit, catchW r = none ↔ r = Except.ok ()) ∧
    (∀ e : Err, catchW (Except.error e) = some e) ∧
    (∀ (pre : List (Option Err × String)) (e : Err) (z : String)
        (post : List (Option Err × String)),
      (∀ p ∈ pre, p.1 = none) →
      (prepare_datasets_for (pre ++ (catchW (Except.error e), z) :: post)).2 = some e) := by
  refine ⟨?_, ?_, ?_⟩
  · intro r
    cases r with
    | ok u => cases u; simp [catchW]
    | error e => simp [catchW]
  · intro e
    rfl
  · intro pre e z post h
    exact (runLoop_first_fault 0 pre e z post h).2

theorem C9_catch_contract_witness :
    catchW (Except.error Err.keyboardInterrupt) = some Err.keyboardInterrupt ∧
    (prepare_datasets_for
      ([] ++ (catchW (Except.error Err.keyboardInterrupt), "0.9") :: [])).2 =
      some Err.keyboardInterrupt :=
  ⟨C9_catch_contract.2.1 Err.keyboardInterrupt,
   C9_catch_contract.2.2 [] Err.keyboardInterrupt "0.9" [] (by simp)⟩

/-- Claim C10: `Counter` is unreachable from the entry point, constructing a
`Counter` raises `NameError` because `threading` is not a bound name, and
`Counter.get` on a hypothetically constructed instance raises
`AttributeError` because `value` is never assigned (only `_value` is). -/
theorem C10_counter_unreachable_and_broken :
    entryReachable.contains "Counter" = false ∧
    counterInit = Except.error (PyErr.nameError "threading") ∧
    ∀ v : String → Int,
      counterGet counterAssignedAttrs v = Except.error (PyErr.attributeError "value") := by
  refine ⟨by decide, rfl, fun v => rfl⟩

theorem ensure_base_present (env : Env) (s : FS) (h : s.baseCsv = true) :
    ensure_base_dataset_downloaded env s =
      ⟨{ s with dataDir := true }, [Ev.makedirs "data"], none⟩ := by
  simp [ensure_base_dataset_downloaded, h]

theorem ensure_dw_present (env : Env) (s : FS) (h : s.dwMarker = true) :
    ensure_datawarehouse_downloaded env s =
      ⟨{ s with dataDir := true, thirdPartyDir := true },
       [Ev.makedirs "data/3rd-party"], none⟩ := by
  simp [ensure_datawarehouse_downloaded, h]

theorem ensure_base_ok_marker (env : Env) (s : FS)
    (h : (ensure_base_dataset_downloaded env s).err = none) :
    (ensure_base_dataset_downloaded env s).fs.baseCsv = true := by
  cases hb : s.baseCsv <;> cases hf : env.fetchBaseOk <;>
    simp_all [ensure_base_dataset_downloaded]

theorem ensure_dw_ok_marker (env : Env) (s : FS)
    (h : (ensure_datawarehouse_downloaded env s).err = none) :
    (ensure_datawarehouse_downloaded env s).fs.dwMarker = true := by
  cases h1 : s.dwMarker <;> cases h2 : s.dwDir <;> cases h3 : env.fetchDWOk <;>
    simp_all [ensure_datawarehouse_downloaded]

theorem ensure_dw_stale_trace (env : Env) (s : FS)
    (h1 : s.dwMarker = false) (h2 : s.dwDir = true) :
    (ensure_datawarehouse_downloaded env s).tr =
      [Ev.makedirs "data/3rd-party", Ev.rmtree "data/3rd-party/datawarehouse",
       Ev.fetchDW] := by
  cases h3 : env.fetchDWOk <;> simp [ensure_datawarehouse_downloaded, h1, h2, h3]

/-- Claim C7: for each resource, a successful `ensure` call leaves the
presence marker set, a second `ensure` call performed afterwards executes
zero fetch operations (the presence check short-circuits before any fetch),
and when the resource was already present even the first call executes zero
fetch operations. -/
theorem C7_second_ensure_no_fetch (R : Resource) (env1 env2 : Env) (s : FS)
    (h : (ensureResource R env1 s).err = none) :
    markerOf R (ensureResource R env1 s).fs = true ∧
    (ensureResource R env2 (ensureResource R env1 s).fs).tr.countP
      (fun e => isFetch e) = 0 ∧
    (markerOf R s = true →
      (ensureResource R env1 s).tr.countP (fun e => isFetch e) = 0) := by
  cases R with
  | baseDataset =>
      have hm := ensure_base_ok_marker env1 s h
      refine ⟨hm, ?_, ?_⟩
      · rw [show ensureResource Resource.baseDataset env2
              (ensureResource Resource.baseDataset env1 s).fs =
            ensure_base_dataset_downloaded env2
              (ensure_base_dataset_downloaded env1 s).fs from rfl,
          ensure_base_present env2 _ hm]
        rfl
      · intro hp
        rw [show ensureResource Resource.baseDataset env1 s =
              ensure_base_dataset_downloaded env1 s from rfl,
          ensure_base_present env1 s hp]
        rfl
  | datawarehouse =>
      have hm := ensure_dw_ok_marker env1 s h
      refine ⟨hm, ?_, ?_⟩
      · rw [show ensureResource Resource.datawarehouse env2
              (ensureResource Resource.datawarehouse env1 s).fs =
            ensure_datawarehouse_downloaded env2
              (ensure_datawarehouse_downloaded env1 s).fs from rfl,
          ensure_dw_present env2 _ hm]
        rfl
      · intro hp
        rw [show ensureResource Resource.datawarehouse env1 s =
              ensure_datawarehouse_downloaded env1 s from rfl,
          ensure_dw_present env1 s hp]
        rfl

theorem C7_second_ensure_no_fetch_witness :
    markerOf Resource.datawarehouse
      (ensureResource Resource.datawarehouse envOk fsAll).fs = true ∧
    (ensureResource Resource.datawarehouse envOk
      (ensureResource Resource.datawarehouse envOk fsAll).fs).tr.countP
        (fun e => isFetch e) = 0 ∧
    (ensureResource Resource.datawarehouse envOk fsAll).tr.countP
      (fun e => isFetch e) = 0 := by
  have h := C7_second_ensure_no_fetch Resource.datawarehouse envOk envOk fsAll (by decide)
  exact ⟨h.1, h.2.1, h.2.2 (by decide)⟩

/-- Claim C3: for each resource, when the presence marker is absent and a
stale prior copy of the storage location exists, `ensure` removes that copy
entirely before performing the fetch: the removal event occurs in the trace
strictly before the first fetch event.  For the base dataset the marker and
the storage location are the same file, so the premise is only satisfiable
for the tool checkout; the shared contract holds for both resources. -/
theorem C3_stale_removed_before_fetch (R : Resource) (env : Env) (s : FS)
    (h1 : markerOf R s = false) (h2 : storageExists R s = true) :
    rmtreeEvOf R ∈ ((ensureResource R env s).tr.takeWhile
      (fun e => e != fetchEvOf R)) ∧
    fetchEvOf R ∈ (ensureResource R env s).tr := by
  cases R with
  | baseDataset =>
      simp only [markerOf] at h1
      simp only [storageExists] at h2
      rw [h1] at h2
      exact absurd h2 (by decide)
  | datawarehouse =>
      simp only [markerOf] at h1
      simp only [storageExists] at h2
      rw [show ensureResource Resource.datawarehouse env s =
            ensure_datawarehouse_downloaded env s from rfl,
        ensure_dw_stale_trace env s h1 h2]
      decide

theorem C3_stale_removed_before_fetch_witness :
    markerOf Resource.datawarehouse fsStaleDW = false ∧
    storageExists Resource.datawarehouse fsStaleDW = true ∧
    rmtreeEvOf Resource.datawarehouse ∈
      ((ensureResource Resource.datawarehouse envOk fsStaleDW).tr.takeWhile
        (fun e => e != fetchEvOf Resource.datawarehouse)) ∧
    fetchEvOf Resource.datawarehouse ∈
      (ensureResource Resource.datawarehouse envOk fsStaleDW).tr := by
  have h := C3_stale_removed_before_fetch Resource.datawarehouse envOk fsStaleDW
    (by decide) (by decide)
  exact ⟨by decide, by decide, h.1, h.2⟩

/-- Claim C2, counterexample: in a state where the durable artifact for
z = "1.0" exists but the base dataset file is absent, `prepare("1.0")`
performs a resource fetch, and that fetch writes the base dataset file onto
the filesystem — the claimed "no fetch, no writes" fails because both
`ensure` calls run before the durable-path check at line 65. -/
theorem C2_counterexample :
    fsC2.h5 "1.0" = true ∧
    Ev.fetchBase ∈ (ensure_skewed_dataset_prepared envOk "1.0" fsC2).tr ∧
    (ensure_skewed_dataset_prepared envOk "1.0" fsC2).fs.baseCsv = true ∧
    fsC2.baseCsv = false := by
  refine ⟨rfl, by decide, rfl, rfl⟩

/-- Claim C2, amended: if the durable artifact for `z` exists AND both shared
resources are present AND the involved directories exist, then `prepare(z)`
returns successfully, leaves the filesystem unchanged, and its trace consists
of the three unconditional `os.makedirs` calls only — no fetch, no transform
invocation, no filesystem write.  The resource-presence premises are forced
by the counterexample: the code runs both `ensure` calls before checking the
durable path, so an absent resource is fetched and written even when the
artifact exists. -/
theorem C2_prepare_noop_when_all_present (env : Env) (z : String) (s : FS)
    (hH5 : s.h5 z = true) (hBase : s.baseCsv = true) (hDW : s.dwMarker = true)
    (hData : s.dataDir = true) (hThird : s.thirdPartyDir = true)
    (hSkew : s.skewedDir = true) :
    ensure_skewed_dataset_prepared env z s =
      ⟨s, [Ev.makedirs "data", Ev.makedirs "data/3rd-party",
           Ev.makedirs "data/skewed"], none⟩ := by
  obtain ⟨d1, d2, d3, d4, d5, d6, f1, f2, f3, f4⟩ := s
  simp_all [ensure_skewed_dataset_prepared, ensure_base_dataset_downloaded,
            ensure_datawarehouse_downloaded]

theorem C2_prepare_noop_when_all_present_witness :
    ensure_skewed_dataset_prepared envOk "1.0" fsAll =
      ⟨fsAll, [Ev.makedirs "data", Ev.makedirs "data/3rd-party",
               Ev.makedirs "data/skewed"], none⟩ :=
  C2_prepare_noop_when_all_present envOk "1.0" fsAll (by decide) (by decide)
    (by decide) (by decide) (by decide) (by decide)

theorem processTable_mem (df : List Row) (zval : Rat) (r : ORow)
    (hr : r ∈ processTable df zval) : 22 < r.PRI_tau_pt ∧ r.Z = zval := by
  unfold processTable at hr
  rcases List.mem_map.mp hr with ⟨a, ha, rfl⟩
  have := (List.mem_filter.mp ha).2
  exact ⟨of_decide_eq_true this, rfl⟩

theorem processTable_length (df : List Row) (zval : Rat) :
    (processTable df zval).length ≤ df.length := by
  unfold processTable
  rw [List.length_map]
  exact List.length_filter_le _ _

theorem prepare_run_pipeline (env : Env) (z : String) (s : FS)
    (hrun : (ensure_skewed_dataset_prepared env z s).err = none)
    (hnew : s.h5 z = false) :
    (ensure_skewed_dataset_prepared env z s).fs.h5 z = true ∧
    (ensure_skewed_dataset_prepared env z s).fs.csv z = false ∧
    (ensure_skewed_dataset_prepared env z s).fs.h5Data z =
      processTable (inputTable env z s) (env.floatOf z) := by
  cases hb : s.baseCsv <;> cases hfb : env.fetchBaseOk <;>
    cases hm : s.dwMarker <;> cases hfd : env.fetchDWOk <;>
      cases hc : s.csv z <;> cases ht : env.transformOk z <;>
        simp_all [ensure_skewed_dataset_prepared, ensure_base_dataset_downloaded,
                  ensure_datawarehouse_downloaded, transformStep, persistStep,
                  inputTable, Function.update_same]

theorem prepare_ok_h5 (env : Env) (z : String) (s : FS)
    (hrun : (ensure_skewed_dataset_prepared env z s).err = none) :
    (ensure_skewed_dataset_prepared env z s).fs.h5 z = true := by
  cases hh : s.h5 z
  · exact (prepare_run_pipeline env z s hrun hh).1
  · cases hb : s.baseCsv <;> cases hfb : env.fetchBaseOk <;>
      cases hm : s.dwMarker <;> cases hfd : env.fetchDWOk <;>
        simp_all [ensure_skewed_dataset_prepared, ensure_base_dataset_downloaded,
                  ensure_datawarehouse_downloaded]

/-- Claim C4: when a successful `prepare(z)` actually runs its pipeline (the
durable artifact did not pre-exist), every row of the persisted output table
satisfies `PRI_tau_pt > 22`, no row with `PRI_tau_pt ≤ 22` is present, and
the output row count is at most the row count of the input table loaded from
the intermediate file. -/
theorem C4_filter_correct (env : Env) (z : String) (s : FS)
    (hrun : (ensure_skewed_dataset_prepared env z s).err = none)
    (hnew : s.h5 z = false) :
    (∀ r ∈ (ensure_skewed_dataset_prepared env z s).fs.h5Data z,
        22 < r.PRI_tau_pt ∧ ¬(r.PRI_tau_pt ≤ 22)) ∧
    ((ensure_skewed_dataset_prepared env z s).fs.h5Data z).length ≤
      (inputTable env z s).length := by
  obtain ⟨-, -, hdata⟩ := prepare_run_pipeline env z s hrun hnew
  rw [hdata]
  refine ⟨fun r hr => ?_, processTable_length _ _⟩
  have h := (processTable_mem _ _ r hr).1
  exact ⟨h, not_le.mpr h⟩

theorem C4_filter_correct_witness :
    (⟨30, 0, 1⟩ : ORow) ∈
      (ensure_skewed_dataset_prepared envC4 "1.0" fsFresh).fs.h5Data "1.0" ∧
    (22 < (30 : Rat) ∧ ¬((30 : Rat) ≤ 22)) ∧
    ((ensure_skewed_dataset_prepared envC4 "1.0" fsFresh).fs.h5Data "1.0").length ≤
      (inputTable envC4 "1.0" fsFresh).length := by
  have h := C4_filter_correct envC4 "1.0" fsFresh (by decide) (by decide)
  exact ⟨by decide, h.1 ⟨30, 0, 1⟩ (by decide), h.2⟩

/-- Claim C5: when a successful `prepare(z)` actually runs its pipeline,
every row of the persisted output table has the added column `Z` exactly
equal to the numeric interpretation `float(z)` used for that invocation,
uniformly over all retained rows. -/
theorem C5_augmentation_correct (env : Env) (z : String) (s : FS)
    (hrun : (ensure_skewed_dataset_prepared env z s).err = none)
    (hnew : s.h5 z = false) :
    ∀ r ∈ (ensure_skewed_dataset_prepared env z s).fs.h5Data z,
      r.Z = env.floatOf z := by
  obtain ⟨-, -, hdata⟩ := prepare_run_pipeline env z s hrun hnew
  rw [hdata]
  exact fun r hr => (processTable_mem _ _ r hr).2

theorem C5_augmentation_correct_witness :
    (⟨30, 0, 1⟩ : ORow) ∈
      (ensure_skewed_dataset_prepared envC4 "1.0" fsFresh).fs.h5Data "1.0" ∧
    (⟨30, 0, 1⟩ : ORow).Z = envC4.floatOf "1.0" :=
  ⟨by decide,
   C5_augmentation_correct envC4 "1.0" fsFresh (by decide) (by decide)
     ⟨30, 0, 1⟩ (by decide)⟩

/-- Claim C6, counterexample: from a state where both the durable artifact
and a leftover intermediate file for z = "1.0" exist, `prepare("1.0")`
completes successfully via the early return at line 65, yet the intermediate
path still exists afterwards, contradicting the claim that after every
successful `prepare(z)` the intermediate path does not exist. -/
theorem C6_counterexample :
    fsC6.csv "1.0" = true ∧
    (ensure_skewed_dataset_prepared envOk "1.0" fsC6).err = none ∧
    (ensure_skewed_dataset_prepared envOk "1.0" fsC6).fs.csv "1.0" = true ∧
    (ensure_skewed_dataset_prepared envOk "1.0" fsC6).fs.h5 "1.0" = true := by
  exact ⟨rfl, rfl, rfl, rfl⟩

/-- Claim C6, amended: after any successful `prepare(z)` the durable path
exists; and when the durable path did not already exist at the start of the
call — so the pipeline actually ran — the intermediate path does not exist
afterwards.  The early-return path, by contrast, leaves a pre-existing
leftover intermediate file in place. -/
theorem C6_cleanup (env : Env) (z : String) (s : FS)
    (hrun : (ensure_skewed_dataset_prepared env z s).err = none) :
    (ensure_skewed_dataset_prepared env z s).fs.h5 z = true ∧
    (s.h5 z = false → (ensure_skewed_dataset_prepared env z s).fs.csv z = false) :=
  ⟨prepare_ok_h5 env z s hrun,
   fun hnew => (prepare_run_pipeline env z s hrun hnew).2.1⟩

theorem C6_cleanup_witness :
    (ensure_skewed_dataset_prepared envC4 "1.0" fsFresh).fs.h5 "1.0" = true ∧
    (ensure_skewed_dataset_prepared envC4 "1.0" fsFresh).fs.csv "1.0" = false := by
  have h := C6_cleanup envC4 "1.0" fsFresh (by decide)
  exact ⟨h.1, h.2 (by decide)⟩

theorem MInv_init (k : Nat) : MInv (minit k) := by
  refine ⟨?_, ?_, ?_, ?_, rfl⟩ <;> intro t h <;> simp [minit, inCS] at h

theorem MInv_mstep {c : MConf} {t : Nat} {c2 : MConf}
    (h : mstep c t = some c2) (hI : MInv c) : MInv c2 := by
  obtain ⟨ha, hb, hc, hd, he⟩ := hI
  unfold mstep at h
  by_cases ht : t < c.n
  case neg => rw [if_neg ht] at h; exact absurd h (by simp)
  rw [if_pos ht] at h
  cases hp : c.pcs t with
  | waiting =>
      rw [hp] at h
      cases hl : c.lock with
      | some w => rw [hl] at h; exact absurd h (by simp)
      | none =>
          rw [hl] at h
          injection h with h
          subst h
          refine ⟨?_, ?_, ?_, ?_, he⟩
          · intro u hu
            dsimp only at hu ⊢
            rcases eq_or_ne u t with rfl | hut
            · rfl
            · rw [Function.update_noteq hut] at hu
              exact absurd (ha u hu) (by simp [hl])
          · intro u hu
            dsimp only at hu ⊢
            rcases eq_or_ne u t with rfl | hut
            · rw [Function.update_same] at hu
              exact absurd hu (by decide)
            · rw [Function.update_noteq hut] at hu
              exact hb u hu
          · intro u hu
            dsimp only at hu ⊢
            rcases eq_or_ne u t with rfl | hut
            · rw [Function.update_same] at hu
              exact absurd hu (by decide)
            · rw [Function.update_noteq hut] at hu
              exact hc u hu
          · intro u hu
            dsimp only at hu ⊢
            rcases eq_or_ne u t with rfl | hut
            · rw [Function.update_same] at hu
              exact absurd hu (by decide)
            · rw [Function.update_noteq hut] at hu
              exact hd u hu
  | checking =>
      rw [hp] at h
      have hlock : c.lock = some t := ha t (by rw [hp]; rfl)
      injection h with h
      cases hm : c.marker with
      | true =>
          rw [if_pos hm] at h
          subst h
          refine ⟨?_, ?_, ?_, ?_, he⟩
          · intro u hu
            dsimp only at hu ⊢
            rcases eq_or_ne u t with rfl | hut
            · exact hlock
            · rw [Function.update_noteq hut] at hu
              exact ha u hu
          · intro u hu
            dsimp only at hu ⊢
            rcases eq_or_ne u t with rfl | hut
            · rw [Function.update_same] at hu
              exact absurd hu (by decide)
            · rw [Function.update_noteq hut] at hu
              exact hb u hu
          · intro u hu
            exact hm
          · intro u hu
            exact hm
      | false =>
          rw [if_neg (by simp [hm])] at h
          subst h
          refine ⟨?_, ?_, ?_, ?_, he⟩
          · intro u hu
            dsimp only at hu ⊢
            rcases eq_or_ne u t with rfl | hut
            · exact hlock
            · rw [Function.update_noteq hut] at hu
              exact ha u hu
          · intro u hu
            exact hm
          · intro u hu
            dsimp only at hu ⊢
            rcases eq_or_ne u t with rfl | hut
            · rw [Function.update_same] at hu
              exact absurd hu (by decide)
            · rw [Function.update_noteq hut] at hu
              exact hc u hu
          · intro u hu
            dsimp only at hu ⊢
            rcases eq_or_ne u t with rfl | hut
            · rw [Function.update_same] at hu
              exact absurd hu (by decide)
            · rw [Function.update_noteq hut] at hu
              exact hd u hu
  | fetching =>
      rw [hp] at h
      have hlock : c.lock = some t := ha t (by rw [hp]; rfl)
      have hmf : c.marker = false := hb t hp
      injection h with h
      subst h
      refine ⟨?_, ?_, ?_, ?_, ?_⟩
      · intro u hu
        dsimp only at hu ⊢
        rcases eq_or_ne u t with rfl | hut
        · exact hlock
        · rw [Function.update_noteq hut] at hu
          exact ha u hu
      · intro u hu
        dsimp only at hu ⊢
        rcases eq_or_ne u t with rfl | hut
        · rw [Function.update_same] at hu
          exact absurd hu (by decide)
        · rw [Function.update_noteq hut] at hu
          have h1 := ha u (by rw [hu]; rfl)
          rw [hlock] at h1
          injection h1 with h1
          exact absurd h1.symm hut
      · intro u hu
        rfl
      · intro u hu
        rfl
      · dsimp only
        simp [he, hmf]
  | releasing =>
      rw [hp] at h
      have hlock : c.lock = some t := ha t (by rw [hp]; rfl)
      have hmt : c.marker = true := hc t hp
      injection h with h
      subst h
      refine ⟨?_, ?_, ?_, ?_, he⟩
      · intro u hu
        dsimp only at hu ⊢
        rcases eq_or_ne u t with rfl | hut
        · rw [Function.update_same] at hu
          exact absurd hu (by decide)
        · rw [Function.update_noteq hut] at hu
          have h1 := ha u hu
          rw [hlock] at h1
          injection h1 with h1
          exact absurd h1.symm hut
      · intro u hu
        dsimp only at hu ⊢
        rcases eq_or_ne u t with rfl | hut
        · rw [Function.update_same] at hu
          exact absurd hu (by decide)
        · rw [Function.update_noteq hut] at hu
          exact hb u hu
      · intro u hu
        exact hmt
      · intro u hu
        exact hmt
  | finished =>
      rw [hp] at h
      exact absurd h (by simp)

theorem MInv_mrun {c : MConf} {sched : List Nat} {c2 : MConf}
    (h : mrun c sched = some c2) (hI : MInv c) : MInv c2 := by
  induction sched generalizing c with
  | nil =>
      simp only [mrun, Option.some.injEq] at h
      subst h
      exact hI
  | cons t ts ih =>
      unfold mrun at h
      cases hs : mstep c t with
      | none => rw [hs] at h; exact absurd h (by simp)
      | some c1 =>
          rw [hs] at h
          exact ih h (MInv_mstep hs hI)

/-- Claim C8: concurrent `ensure` calls for the same resource are serialized
by the per-resource exclusive lock — in every reachable configuration at most
one worker is inside the lock-protected check/fetch section — and every
complete run (all workers finished) from the resource-absent initial state
executes exactly one fetch operation: the waiters observe the presence
marker installed by the first successful fetch and return without
fetching. -/
theorem C8_mutex_single_fetch (k : Nat) (sched : List Nat) (c : MConf)
    (hrun : mrun (minit k) sched = some c) :
    (∀ t1 t2, inCS (c.pcs t1) = true → inCS (c.pcs t2) = true → t1 = t2) ∧
    ((∀ t, t < k → c.pcs t = PC.finished) → 0 < k → c.fetches = 1) := by
  obtain ⟨ha, hb, hc, hd, he⟩ := MInv_mrun hrun (MInv_init k)
  constructor
  · intro t1 t2 h1 h2
    have e2 := ha t2 h2
    rw [ha t1 h1] at e2
    exact Option.some.inj e2
  · intro hdone hk
    have hm : c.marker = true := hd 0 (hdone 0 hk)
    simp [he, hm]

theorem C8_mutex_single_fetch_witness :
    (mrun (minit 2) [0, 0, 0, 0, 1, 1, 1]).map MConf.fetches = some 1 := by
  cases hco : mrun (minit 2) [0, 0, 0, 0, 1, 1, 1] with
  | none =>
      have hs : (mrun (minit 2) [0, 0, 0, 0, 1, 1, 1]).isSome = true := by decide
      rw [hco] at hs
      exact absurd hs (by decide)
  | some c =>
      have h0 : (mrun (minit 2) [0, 0, 0, 0, 1, 1, 1]).map (fun d => d.pcs 0) =
          some PC.finished := by decide
      have h1 : (mrun (minit 2) [0, 0, 0, 0, 1, 1, 1]).map (fun d => d.pcs 1) =
          some PC.finished := by decide
      rw [hco] at h0 h1
      simp only [Option.map_some', Option.some.injEq] at h0 h1
      have hdone : ∀ t, t < 2 → c.pcs t = PC.finished := by
        intro t ht
        interval_cases t
        · exact h0
        · exact h1
      have hf := (C8_mutex_single_fetch 2 [0, 0, 0, 0, 1, 1, 1] c hco).2 hdone
        (by decide)
      simp [hf]
